import Mathlib

/-!
Shallow embedding of the scouting-server analytics core
(`calculate_timd.py` — the per-robot Metrics Extractor, and
`calculate_defense.py` — the cross-robot Defense Attribution Engine),
together with theorems settling the specification claims about it.

Python timelines are lists of loosely-typed event dictionaries; we embed an
event as a structure whose always-present fields (`type`, `time` — guaranteed
by the data model) are plain and whose kind-specific fields are `Option`s
(`none` = key absent).  Python `dict.get(k)` on an absent key yields `None`
(embedded as `PyVal.none` for the dynamic-field reads the filters perform);
`d[k]` on an absent key raises, which we embed as `Except.error`.  Machine
floats in the source only ever hold exact decimals (timestamps, counts and
their quotients), so they are embedded as `ℚ`.
-/

namespace Scouting

/-- A dynamically-typed Python value, as read out of an event dictionary by
the timeline filters.  `PyVal.none` is Python's `None` (also the result of
`dict.get` on an absent key). -/
inductive PyVal where
  | str : String → PyVal
  | int : Int → PyVal
  | bool : Bool → PyVal
  | rat : ℚ → PyVal
  | none : PyVal
deriving DecidableEq

/-- One timeline event ("action").  `type` and `time` are always present per
the data model; every other field is kind-specific and may be absent. -/
structure Action where
  type : String
  time : ℚ
  piece : Option String
  level : Option Int
  didSucceed : Option Bool
  wasDefended : Option Bool
  zone : Option String
  shotOutOfField : Option Bool
deriving DecidableEq

/-- `action.get(field)`: dynamic field read with Python-`None` on absence. -/
def Action.get (a : Action) : String → PyVal
  | "type" => PyVal.str a.type
  | "time" => PyVal.rat a.time
  | "piece" => (a.piece.map PyVal.str).getD PyVal.none
  | "level" => (a.level.map PyVal.int).getD PyVal.none
  | "didSucceed" => (a.didSucceed.map PyVal.bool).getD PyVal.none
  | "wasDefended" => (a.wasDefended.map PyVal.bool).getD PyVal.none
  | "zone" => (a.zone.map PyVal.str).getD PyVal.none
  | "shotOutOfField" => (a.shotOutOfField.map PyVal.bool).getD PyVal.none
  | _ => PyVal.none

/-- An event with no optional fields set. -/
def mkAction (ty : String) (t : ℚ) : Action :=
  ⟨ty, t, none, none, none, none, none, none⟩

/-- The `calculatedData` portion of a TIMD record that the defense stage
reads back (`timd_data['calculatedData'].get('timeDefending', 0)`). -/
structure CalcData where
  timeDefending : Option ℚ
deriving DecidableEq

/-- A TIMD (team-in-match-data) record as read by the two analytics stages:
the canonical timeline (absent ⇒ `timd.get('timeline')` is `None`) and the
previously calculated data. -/
structure Timd where
  timeline : Option (List Action)
  calculatedData : CalcData
deriving DecidableEq

/-- Modelled from the spec: `utils.avg` lives in `utils.py`, which is not
among the sources here.  Per §4.3/§7 of the spec, an average over an empty
list yields the caller-supplied null/default value (the source calls it as
`utils.avg(cycle_times, None)`); otherwise it is the arithmetic mean. -/
def utilsAvg (lst : List ℚ) (default : Option ℚ) : Option ℚ :=
  if lst.isEmpty then default else some (lst.sum / lst.length)

/-- `percent_success` (calculate_timd.py:28): integer percentage of actions
whose `didSucceed` is true.  The averaging helper `utils.avg` is modelled
from the spec (null on an empty list, §7), so a call on zero qualifying
actions yields `none` rather than a number. -/
def percent_success (actions : List Action) : Option ℤ :=
  (utilsAvg (actions.map (fun a => if a.didSucceed = some true then (1 : ℚ) else 0)) none).map
    (fun v => round (100 * v))

/-- The filter loop body of `filter_timeline_actions` (calculate_timd.py:117):
check one action against every `(field, requirement)` predicate.  The
`zone = 'loadingStation'` and the period predicates index the field
directly (`action['zone']`, `action['time']`), so a missing `zone` raises
(`Except.error`); every other predicate uses `.get` (absence ⇒ `None` ⇒
mismatch), and `level = 1` treats an absent level as level 1. -/
def matchesFilters (a : Action) : List (String × PyVal) → Except String Bool
  | [] => Except.ok true
  | (field, req) :: rest =>
    if field = "level" ∧ req = PyVal.int 1 then
      if a.level.getD 1 ≠ 1 then Except.ok false
      else matchesFilters a rest
    else if field = "zone" ∧ req = PyVal.str "loadingStation" then
      match a.zone with
      | none => Except.error "KeyError"
      | some z =>
        if z ∉ ["leftLoadingStation", "rightLoadingStation"] then Except.ok false
        else matchesFilters a rest
    else if field = "time" then
      if req = PyVal.str "sand" ∧ a.time ≤ 135 then Except.ok false
      else if req = PyVal.str "tele" ∧ a.time > 135 then Except.ok false
      else matchesFilters a rest
    else
      if a.get field ≠ req then Except.ok false
      else matchesFilters a rest

/-- Keep the actions matching every predicate, propagating a raised error. -/
def filterActionsList (filters : List (String × PyVal)) : List Action → Except String (List Action)
  | [] => Except.ok []
  | a :: rest => do
    let m ← matchesFilters a filters
    let r ← filterActionsList filters rest
    Except.ok (if m then a :: r else r)

/-- `filter_timeline_actions` (calculate_timd.py:103): the Timeline Filter
over `timd.get('timeline', [])`. -/
def filter_timeline_actions (timd : Timd) (filters : List (String × PyVal)) :
    Except String (List Action) :=
  filterActionsList filters (timd.timeline.getD [])

/-- The filter loop body of `filter_cycles` (calculate_timd.py:53): predicates
are checked against the cycle's second element; only the `level = 1`
absence rule is special and every read is a `.get`, so no error arises. -/
def cycleMatches (c : Action × Action) : List (String × PyVal) → Bool
  | [] => true
  | (field, req) :: rest =>
    if field = "level" ∧ req = PyVal.int 1 then
      if c.2.level.getD 1 ≠ 1 then false else cycleMatches c rest
    else
      if c.2.get field ≠ req then false else cycleMatches c rest

/-- `filter_cycles` (calculate_timd.py:40). -/
def filter_cycles (cycle_list : List (Action × Action)) (filters : List (String × PyVal)) :
    List (Action × Action) :=
  cycle_list.filter (fun c => cycleMatches c filters)

/-- Python slice `l[::2]` — the even-indexed elements. -/
def evens {α : Type} : List α → List α
  | [] => []
  | [a] => [a]
  | a :: _ :: rest => a :: evens rest

/-- Python slice `l[1::2]` — the odd-indexed elements. -/
def odds {α : Type} : List α → List α
  | [] => []
  | _ :: rest => evens rest

/-- `make_paired_cycle_list` (calculate_timd.py:146):
`list(zip(cycle_list[::2], cycle_list[1::2]))`. -/
def make_paired_cycle_list {α : Type} (cycle_list : List α) : List (α × α) :=
  (evens cycle_list).zip (odds cycle_list)

/-- `calculate_avg_cycle_time` (calculate_timd.py:70): mean of
(first time − second time), null on an empty cycle list
(the source passes `None` as the `utils.avg` default). -/
def calculate_avg_cycle_time (cycles : List (Action × Action)) : Option ℚ :=
  utilsAvg (cycles.map (fun c => c.1.time - c.2.time)) none

/-- `calculate_total_action_duration` (calculate_timd.py:85): sum of
(first time − second time) over the pairs. -/
def calculate_total_action_duration (cycles : List (Action × Action)) : ℚ :=
  (cycles.map (fun c => c.1.time - c.2.time)).sum

/-- The cycle list built in `calculate_timd_data` (calculate_timd.py:294):
the placement/intake/drop events, minus failed intakes. -/
def cycle_list (timd : Timd) : List Action :=
  (timd.timeline.getD []).filter (fun a =>
    (a.type == "intake" || a.type == "placement" || a.type == "drop") &&
    !(a.type == "intake" && a.didSucceed == some false))

/-- The paired cycle list of `calculate_timd_data` (calculate_timd.py:303):
built only when at least two cycle actions exist (`none` = the cycle-time
fields are never written), after dropping a leading preload
(placement/drop) and a trailing unfinished intake. -/
def paired_cycle_list (timd : Timd) : Option (List (Action × Action)) :=
  let cl := cycle_list timd
  if cl.length > 1 then
    let cl1 := match cl with
      | a :: rest => if a.type = "placement" ∨ a.type = "drop" then rest else a :: rest
      | [] => []
    let cl2 := if (cl1.getLast?.map Action.type) = some "intake" then cl1.dropLast else cl1
    some (make_paired_cycle_list cl2)
  else none

/-- The per-piece average cycle time (`cargoCycleAll` / `panelCycleAll`,
calculate_timd.py:316/325, generalised over the piece literal). -/
def pieceCycleAll (timd : Timd) (piece : String) : Option (Option ℚ) :=
  (paired_cycle_list timd).map (fun pl =>
    calculate_avg_cycle_time (filter_cycles pl [("piece", PyVal.str piece)]))

/-- The `cycle_actions` list of `calculate_timd_data` (calculate_timd.py:179):
all placement/intake/drop events of the timeline. -/
def cycle_actions (timd : Timd) : List Action :=
  (timd.timeline.getD []).filter (fun a =>
    a.type == "placement" || a.type == "intake" || a.type == "drop")

/-- The intake-count pipeline of `calculate_timd_data` (calculate_timd.py:174
and 181–189): `cargoCycles`/`panelCycles` are filter counts of intakes by
piece, then one is subtracted from the trailing intake's piece when the
last cycle action is an intake (`action['piece']` and the keyed decrement
raise when the piece is absent or is not one of the two counted kinds). -/
def piece_cycles (timd : Timd) : Except String (ℤ × ℤ) := do
  let cargo ← (filter_timeline_actions timd
    [("type", PyVal.str "intake"), ("piece", PyVal.str "cargo")]).map List.length
  let panel ← (filter_timeline_actions timd
    [("type", PyVal.str "intake"), ("piece", PyVal.str "panel")]).map List.length
  match (cycle_actions timd).getLast? with
  | Option.none => Except.ok ((cargo : ℤ), (panel : ℤ))
  | some last =>
    if last.type = "intake" then
      match last.piece with
      | Option.none => Except.error "KeyError"
      | some "cargo" => Except.ok ((cargo : ℤ) - 1, (panel : ℤ))
      | some "panel" => Except.ok ((cargo : ℤ), (panel : ℤ) - 1)
      | some _ => Except.error "KeyError"
    else Except.ok ((cargo : ℤ), (panel : ℤ))

/-- Direct count of the intake events of a given piece in a timeline
(the quantity the cycles-started claim speaks about). -/
def intakeEventCount (timd : Timd) (piece : String) : ℤ :=
  ((timd.timeline.getD []).countP (fun a =>
    a.type == "intake" && a.piece == some piece) : ℤ)

/-- The piece of the trailing cycle action when it is an intake
(`none` when there is no cycle action, the last one is not an intake,
or that intake carries no piece). -/
def trailingIntakePiece (timd : Timd) : Option String :=
  match (cycle_actions timd).getLast? with
  | Option.none => none
  | some last => if last.type = "intake" then last.piece else none

/-- The `defense_items` list of `calculate_timd_data` (calculate_timd.py:379):
all startDefense/endDefense events of the timeline. -/
def defense_items (timd : Timd) : List Action :=
  (timd.timeline.getD []).filter (fun a =>
    a.type == "startDefense" || a.type == "endDefense")

/-- `timeDefending` (calculate_timd.py:383–391): total duration over the
positionally paired defense events; 0.0 when none occurred. -/
def timeDefending (timd : Timd) : ℚ :=
  let di := defense_items timd
  if di.length > 0 then
    calculate_total_action_duration (make_paired_cycle_list di)
  else 0

/-- Alternating pairwise sum `(a₁ − a₂) + (a₃ − a₄) + ⋯` of a list of times,
a trailing unpaired element contributing nothing. -/
def pairSum : List ℚ → ℚ
  | a :: b :: rest => (a - b) + pairSum rest
  | _ => 0

/-- The defense-window construction described by the specification claim
(stated from the claim's words, for comparison against `timeDefending`):
deduplicate consecutive same-type defense events, pair each startDefense
with the following endDefense, and close an unterminated final
startDefense at match end (time 0.0). -/
def claimedWindows : List Action → Option String → Option ℚ → List (ℚ × ℚ)
  | [], _, pending =>
    match pending with
    | some s => [(s, 0)]
    | Option.none => []
  | a :: rest, lastType, pending =>
    if some a.type = lastType then claimedWindows rest lastType pending
    else if a.type = "startDefense" then claimedWindows rest (some a.type) (some a.time)
    else
      match pending with
      | some s => (s, a.time) :: claimedWindows rest (some a.type) Option.none
      | Option.none => claimedWindows rest (some a.type) Option.none

/-- Total defending duration under the claim's window construction. -/
def claimed_defense_duration (timd : Timd) : ℚ :=
  ((claimedWindows (defense_items timd) Option.none Option.none).map (fun w => w.1 - w.2)).sum

/-!  The Defense Attribution Engine (`calculate_defense.py`). -/

/-- `timd_name.split('Q')[0]` — the team number of a TIMD name, i.e. the
prefix of the name up to the first `'Q'` separator. -/
def teamOf (s : String) : String := String.mk (s.data.takeWhile (fun c => c ≠ 'Q'))

/-- The alliance-partition state accumulated by the per-match loop of
calculate_defense.py:35–62 (`timds_by_alliance`,
`defending_timds_by_alliance`, and the data-integrity messages printed). -/
structure AllianceSplit where
  redTimds : List (String × Timd)
  blueTimds : List (String × Timd)
  redDefending : List (String × Timd)
  blueDefending : List (String × Timd)
  warnings : List String
deriving DecidableEq

/-- The body of the partition loop (calculate_defense.py:47–62).  `alliance`
is the Python loop-carried variable: a roster-unmatched team prints the
error message but leaves `alliance` at its previous value, so the record
is still filed under the previously seen alliance — and if no alliance was
ever assigned the lookup raises `NameError`. -/
def assignLoop (red blue : List String) :
    List (String × Timd) → Option String → AllianceSplit → Except String AllianceSplit
  | [], _, acc => Except.ok acc
  | (nm, td) :: rest, alliance, acc =>
    let team := teamOf nm
    let matched : Option String :=
      if team ∈ red then some "red"
      else if team ∈ blue then some "blue"
      else Option.none
    let alliance' := match matched with
      | some al => some al
      | Option.none => alliance
    let warns := match matched with
      | some _ => acc.warnings
      | Option.none => acc.warnings ++ ["Error: TIMD is not in match schedule."]
    match alliance' with
    | Option.none => Except.error "NameError"
    | some al =>
      let defends : Bool := decide (0 < td.calculatedData.timeDefending.getD 0)
      let acc' :=
        if al = "red" then
          { acc with
            redTimds := acc.redTimds ++ [(nm, td)]
            redDefending := if defends then acc.redDefending ++ [(nm, td)] else acc.redDefending
            warnings := warns }
        else
          { acc with
            blueTimds := acc.blueTimds ++ [(nm, td)]
            blueDefending := if defends then acc.blueDefending ++ [(nm, td)] else acc.blueDefending
            warnings := warns }
      assignLoop red blue rest alliance' acc'

/-- `timds_by_alliance` / `defending_timds_by_alliance` for one match
(calculate_defense.py:35–62). -/
def assign_alliances (red blue : List String) (timds : List (String × Timd)) :
    Except String AllianceSplit :=
  assignLoop red blue timds Option.none ⟨[], [], [], [], []⟩

/-- The defense-window pair builder of calculate_defense.py:70–87: walk the
timeline, deduplicate consecutive same-type defense events, remember the
last startDefense time, and emit a `(last_start_defense, end_time)` pair
at each (deduplicated) endDefense.  The start component mirrors the
Python variable, which is `None` until a startDefense has been seen. -/
def buildTimePairs : List Action → Option String → Option ℚ → List (Option ℚ × ℚ)
  | [], _, _ => []
  | a :: rest, lastActionType, lastStartDefense =>
    if a.type = "startDefense" ∨ a.type = "endDefense" then
      if some a.type ≠ lastActionType then
        if a.type = "startDefense" then
          buildTimePairs rest (some a.type) (some a.time)
        else
          (lastStartDefense, a.time) :: buildTimePairs rest (some a.type) lastStartDefense
      else buildTimePairs rest lastActionType lastStartDefense
    else buildTimePairs rest lastActionType lastStartDefense

/-- `time_pairs` for one defender's own timeline (calculate_defense.py:70–90). -/
def time_pairs_of (timeline : List Action) : List (Option ℚ × ℚ) :=
  buildTimePairs timeline Option.none Option.none

/-- The defender's effective windows (calculate_defense.py:70–95): the pairs
built from its own timeline, overridden to the single full-match span
`(135.0, 0.0)` when it is the only defending TIMD of its alliance
(`len(timelines) == 1`). -/
def defender_time_pairs (timelines : List (String × List Action)) (timeline : List Action) :
    List (Option ℚ × ℚ) :=
  if timelines.length = 1 then [(some (135 : ℚ), (0 : ℚ))]
  else time_pairs_of timeline

/-- A defended-cycle entry: the opposing action as mutated by the engine
(calculate_defense.py:132–134) — `piece` overwritten with the running
`game_piece` and `intakeTime` set to the running `intake_time`
(which may be Python `None`). -/
structure AttributedAction where
  action : Action
  piece : String
  intakeTime : Option ℚ
deriving DecidableEq

/-- The inner window loop (calculate_defense.py:127–134): append one
attributed copy of the action per window whose open interval strictly
contains its time.  A `None` start time makes the chained comparison
raise `TypeError`; attributing with `game_piece` never assigned raises
`NameError`. -/
def windowsLoop (a : Action) : List (Option ℚ × ℚ) → Option ℚ → Option String →
    Except String (List AttributedAction)
  | [], _, _ => Except.ok []
  | (s?, e) :: rest, intakeTime, gamePiece =>
    match s? with
    | Option.none => Except.error "TypeError"
    | some s =>
      if s > a.time ∧ a.time > e then
        match gamePiece with
        | Option.none => Except.error "NameError"
        | some p => do
          let r ← windowsLoop a rest intakeTime gamePiece
          Except.ok (⟨a, p, intakeTime⟩ :: r)
      else windowsLoop a rest intakeTime gamePiece

/-- The per-action scan of one opposing timeline
(calculate_defense.py:120–134).  The state is the pair
`(intake_time, game_piece)`: an undefended intake records its time and
piece (reading `action['piece']` directly, so a missing piece raises);
a `wasDefended` event is matched against every window. -/
def scanActions (tps : List (Option ℚ × ℚ)) :
    List Action → Option ℚ × Option String →
    Except String ((Option ℚ × Option String) × List AttributedAction)
  | [], st => Except.ok (st, [])
  | a :: rest, st =>
    if a.wasDefended.getD false = false then
      if a.type = "intake" then
        match a.piece with
        | Option.none => Except.error "KeyError"
        | some p => scanActions tps rest (some a.time, some p)
      else scanActions tps rest st
    else do
      let attributed ← windowsLoop a tps st.1 st.2
      let (st', acc) ← scanActions tps rest st
      Except.ok (st', attributed ++ acc)

/-- `defended_cycles_by_team` (calculate_defense.py:107–136): scan every
opposing TIMD.  `intake_time` is reset to `None` per TIMD but
`game_piece` persists across TIMDs (it is the same module-level variable),
so the threaded `gamePiece` carries over; a missing timeline is skipped,
an empty one raises (`timeline[0]` IndexError), and a leading
placement/drop is stripped as a preload.  Only teams with a non-empty
defended-cycle list are recorded. -/
def scanOpponents (tps : List (Option ℚ × ℚ)) :
    List (String × Timd) → Option String →
    Except String (List (String × List AttributedAction) × Option String)
  | [], gamePiece => Except.ok ([], gamePiece)
  | (nm, td) :: rest, gamePiece =>
    match td.timeline with
    | Option.none => scanOpponents tps rest gamePiece
    | some tl => do
      let tl1 ← match tl with
        | [] => Except.error "IndexError"
        | a :: t =>
          Except.ok (if a.type = "placement" ∨ a.type = "drop" then t else a :: t)
      let (st', cycles) ← scanActions tps tl1 (Option.none, gamePiece)
      let (restMap, gpEnd) ← scanOpponents tps rest st'.2
      Except.ok ((if cycles ≠ [] then (teamOf nm, cycles) :: restMap else restMap), gpEnd)

/-- The drop/fail/cycle counters of calculate_defense.py:143–146, per piece. -/
structure DefCounters where
  cargoDrops : ℕ
  panelDrops : ℕ
  cargoFails : ℕ
  panelFails : ℕ
  cargoCycles : ℕ
  panelCycles : ℕ
  cargoCycleTimes : List ℚ
  panelCycleTimes : List ℚ
deriving DecidableEq

/-- One iteration of the counting loop (calculate_defense.py:147–158): the
attributed piece keys the counter dictionaries (any other piece raises
`KeyError`); a placement reads `didSucceed` directly (absent ⇒ `KeyError`);
a successful placement appends `intakeTime - time` (a `None` intake time
raises `TypeError`); a drop bumps the drop counter. -/
def addAttributed (aa : AttributedAction) (c : DefCounters) : Except String DefCounters :=
  if aa.piece = "cargo" then
    if aa.action.type = "placement" then
      match aa.action.didSucceed with
      | Option.none => Except.error "KeyError"
      | some false =>
        Except.ok { c with cargoCycles := c.cargoCycles + 1, cargoFails := c.cargoFails + 1 }
      | some true =>
        match aa.intakeTime with
        | Option.none => Except.error "TypeError"
        | some it =>
          Except.ok { c with
            cargoCycles := c.cargoCycles + 1
            cargoCycleTimes := c.cargoCycleTimes ++ [it - aa.action.time] }
    else if aa.action.type = "drop" then
      Except.ok { c with cargoCycles := c.cargoCycles + 1, cargoDrops := c.cargoDrops + 1 }
    else Except.ok { c with cargoCycles := c.cargoCycles + 1 }
  else if aa.piece = "panel" then
    if aa.action.type = "placement" then
      match aa.action.didSucceed with
      | Option.none => Except.error "KeyError"
      | some false =>
        Except.ok { c with panelCycles := c.panelCycles + 1, panelFails := c.panelFails + 1 }
      | some true =>
        match aa.intakeTime with
        | Option.none => Except.error "TypeError"
        | some it =>
          Except.ok { c with
            panelCycles := c.panelCycles + 1
            panelCycleTimes := c.panelCycleTimes ++ [it - aa.action.time] }
    else if aa.action.type = "drop" then
      Except.ok { c with panelCycles := c.panelCycles + 1, panelDrops := c.panelDrops + 1 }
    else Except.ok { c with panelCycles := c.panelCycles + 1 }
  else Except.error "KeyError"

/-- The counting loop over a team's defended cycles
(calculate_defense.py:140–158). -/
def countLoop (acc : DefCounters) : List AttributedAction → Except String DefCounters
  | [] => Except.ok acc
  | aa :: rest => do
    let acc' ← addAttributed aa acc
    countLoop acc' rest

/-- The counters for one defended team's cycle list, starting from zero. -/
def countDefendedCycles (cycles : List AttributedAction) : Except String DefCounters :=
  countLoop ⟨0, 0, 0, 0, 0, 0, [], []⟩ cycles

/-- `defended_drop_rate` / `defended_fail_rate` (calculate_defense.py:160–171):
`None` when the defended cycle count is zero, else the quotient. -/
def defended_rate (count cycles : ℕ) : Option ℚ :=
  if cycles = 0 then Option.none else some ((count : ℚ) / cycles)

/-- Python division: raises `ZeroDivisionError` on a zero denominator. -/
def pyDiv (x y : ℚ) : Except String ℚ :=
  if y = 0 then Except.error "ZeroDivisionError" else Except.ok (x / y)

/-- Python subtraction whose left operand may be `None`
(raising `TypeError`). -/
def pySub (x : Option ℚ) (y : ℚ) : Except String ℚ :=
  match x with
  | Option.none => Except.error "TypeError"
  | some v => Except.ok (v - y)

/-- One game-piece slice of an opponent's season baseline, as read from its
cached team record (calculate_defense.py:185–190): `avg{Piece}Drops`,
`avg{Piece}Fails`, `avg{Piece}Cycles`, `{piece}CycleAll` (the last may be
`None`, being itself a null-guarded average). -/
structure PieceBaseline where
  avgDrops : ℚ
  avgFails : ℚ
  avgCycles : ℚ
  cycleAll : Option ℚ
deriving DecidableEq

/-- An opponent's baseline `calculatedData` for both game-piece kinds. -/
structure TeamCalculatedData where
  cargo : PieceBaseline
  panel : PieceBaseline
deriving DecidableEq

/-- The per-piece body of the attribution loop (calculate_defense.py:182–203),
entered only when the defended cycle count is nonzero.  In source order:
the baseline drop/fail rates (`avg_drops/avg_cycles`, unguarded), the lost
time against the baseline cycle time, drops/fails caused (the defended
rates are the dictionary entries, `None` subtraction raising `TypeError`),
the lost-cycles quotient (unguarded), and finally
`points × (drops_caused + fails_caused + lost_cycles)` together with
`drops_caused + fails_caused`. -/
def piecePointsPrevented (points : ℚ) (drops fails : ℕ) (cycle_times : List ℚ)
    (defended_drop_rate defended_fail_rate : Option ℚ)
    (avg_drops avg_fails avg_cycles : ℚ) (avg_cycle_time : Option ℚ) :
    Except String (ℚ × ℚ) := do
  let avg_drop_rate ← pyDiv avg_drops avg_cycles
  let avg_fail_rate ← pyDiv avg_fails avg_cycles
  let lost_time ← match avg_cycle_time with
    | some act => Except.ok ((cycle_times.map (fun ct => ct - act)).sum)
    | Option.none =>
      if cycle_times.isEmpty then Except.ok 0 else Except.error "TypeError"
  let ddr ← pySub defended_drop_rate avg_drop_rate
  let drops_caused := ddr * (drops : ℚ)
  let dfr ← pySub defended_fail_rate avg_fail_rate
  let fails_caused := dfr * (fails : ℚ)
  let lost_cycles ← match avg_cycle_time with
    | some act => pyDiv lost_time act
    | Option.none => Except.error "TypeError"
  Except.ok (points * (drops_caused + fails_caused + lost_cycles),
    drops_caused + fails_caused)

/-- `points_prevented` / `failed_cycles_caused` for one defended opponent
(calculate_defense.py:140–203): count its defended cycles, form the
defended drop/fail rates, and run the per-piece body for each piece kind
with at least one defended cycle (`continue` ⇒ no entry, i.e. `none`).
Cargo is worth 3 points, panel 2. -/
def team_points_prevented (defended_cycles : List AttributedAction)
    (cd : TeamCalculatedData) :
    Except String (Option (ℚ × ℚ) × Option (ℚ × ℚ)) := do
  let c ← countDefendedCycles defended_cycles
  let dropRateCargo := defended_rate c.cargoDrops c.cargoCycles
  let dropRatePanel := defended_rate c.panelDrops c.panelCycles
  let failRateCargo := defended_rate c.cargoFails c.cargoCycles
  let failRatePanel := defended_rate c.panelFails c.panelCycles
  let cargoEntry ← if c.cargoCycles = 0 then pure Option.none else
    (piecePointsPrevented 3 c.cargoDrops c.cargoFails c.cargoCycleTimes
      dropRateCargo failRateCargo
      cd.cargo.avgDrops cd.cargo.avgFails cd.cargo.avgCycles cd.cargo.cycleAll).map some
  let panelEntry ← if c.panelCycles = 0 then pure Option.none else
    (piecePointsPrevented 2 c.panelDrops c.panelFails c.panelCycleTimes
      dropRatePanel failRatePanel
      cd.panel.avgDrops cd.panel.avgFails cd.panel.avgCycles cd.panel.cycleAll).map some
  Except.ok (cargoEntry, panelEntry)

/-- Equality of embedded Python computation results is decidable. -/
instance {e a : Type} [DecidableEq e] [DecidableEq a] : DecidableEq (Except e a) := fun x y =>
  match x, y with
  | Except.ok u, Except.ok v =>
    if h : u = v then Decidable.isTrue (by rw [h]) else Decidable.isFalse (by simp [h])
  | Except.error u, Except.error v =>
    if h : u = v then Decidable.isTrue (by rw [h]) else Decidable.isFalse (by simp [h])
  | Except.ok _, Except.error _ => Decidable.isFalse (by simp)
  | Except.error _, Except.ok _ => Decidable.isFalse (by simp)

/-!  Concrete inputs used by the claim theorems, witnesses and
counterexamples below. -/

/-- A timeline with two consecutive `startDefense` events:
`[startDefense@100, startDefense@80, endDefense@60]`. -/
def exTimdC6 : Timd :=
  ⟨some [mkAction "startDefense" 100, mkAction "startDefense" 80, mkAction "endDefense" 60],
    ⟨Option.none⟩⟩

/-- A timeline holding a single intake event that carries no `zone` field. -/
def exTimdC8 : Timd := ⟨some [mkAction "intake" 100], ⟨Option.none⟩⟩

/-- A defended drop event. -/
def dropActionC1 : Action := { mkAction "drop" 90 with wasDefended := some true }

/-- A successful defended placement at time 20. -/
def placeActionC1 : Action :=
  { mkAction "placement" 20 with didSucceed := some true, wasDefended := some true }

/-- The defended cycles of the end-to-end scenario: two attributed cargo
cycles — one drop and one successful placement whose attached intake was
at 28, i.e. an actual defended cycle time of 8.0. -/
def dcC1 : List AttributedAction :=
  [⟨dropActionC1, "cargo", some 95⟩, ⟨placeActionC1, "cargo", some 28⟩]

/-- An empty-timeline TIMD record with no calculated defense time. -/
def t1C3 : Timd := ⟨some [], ⟨Option.none⟩⟩

/-- An undefended cargo intake at time 100. -/
def intakeC5 : Action := { mkAction "intake" 100 with piece := some "cargo" }

/-- A pinning-foul event (neither a cycle action nor an intake). -/
def foulC5 : Action := mkAction "pinningFoul" 90

/-- A defended, failed placement at time 80. -/
def defPlaceC5 : Action :=
  { mkAction "placement" 80 with wasDefended := some true, didSucceed := some false }

/-- An intake of the given piece at the given time. -/
def intakeOf (t : ℚ) (p : String) : Action := { mkAction "intake" t with piece := some p }

/-- A successful placement of the given piece at the given time. -/
def placementOf (t : ℚ) (p : String) : Action :=
  { mkAction "placement" t with piece := some p, didSucceed := some true }

/-- A defended drop event at the given time. -/
def defendedDropAt (t : ℚ) : Action := { mkAction "drop" t with wasDefended := some true }

/-- Defender windows with all start times present, as `(start, end)` pairs. -/
def tpsOf (ws : List (ℚ × ℚ)) : List (Option ℚ × ℚ) :=
  ws.map (fun w => (some w.1, w.2))

/-- A defended event whose time lies strictly inside the full-match span
`(135.0, 0.0)` — the window test `start_time > time > end_time` of
calculate_defense.py:131 at the overridden sole-defender window. -/
def defWin (b : Action) : Prop :=
  b.wasDefended.getD false = true ∧ (135 : ℚ) > b.time ∧ b.time > 0

instance : DecidablePred defWin := fun b => by unfold defWin; infer_instance

/-- An undefended intake event — the events that update the running
`intake_time` / `game_piece` state of calculate_defense.py:121–124. -/
def undefIntake (a : Action) : Prop :=
  a.type = "intake" ∧ a.wasDefended.getD false = false

instance : DecidablePred undefIntake := fun a => by unfold undefIntake; infer_instance

/-- A defended successful placement of cargo at time 90. -/
def defPlaceC4 : Action := { placementOf 90 "cargo" with wasDefended := some true }

/-- A defender's own recorded windows (50 → 40) that do not contain the
opposing defended event at time 90. -/
def tlW4 : List Action := [mkAction "startDefense" 50, mkAction "endDefense" 40]

/-- An opposing timeline: an undefended cargo intake, then a defended event. -/
def oppW4 : List Action := [intakeOf 100 "cargo", defPlaceC4]

/-- A timeline with two cargo intakes and a trailing placement. -/
def exW9 : Timd :=
  ⟨some [intakeOf 100 "cargo", intakeOf 90 "cargo", placementOf 80 "cargo"], ⟨Option.none⟩⟩

/-!  Helper lemmas. -/

theorem ok_bind {e a b : Type} (x : a) (f : a → Except e b) :
    (Except.ok (ε := e) x >>= f) = f x := rfl

theorem error_bind {e a b : Type} (x : e) (f : a → Except e b) :
    (Except.error (α := a) x >>= f) = Except.error (α := b) x := rfl

theorem map_ok {e a b : Type} (f : a → b) (x : a) :
    Except.map f (Except.ok (ε := e) x) = Except.ok (f x) := rfl

theorem map_error {e a b : Type} (f : a → b) (x : e) :
    Except.map f (Except.error (α := a) x) = Except.error (α := b) x := rfl

theorem evens_cons {α : Type} (b : α) (rest : List α) : evens (b :: rest) = b :: odds rest := by
  cases rest <;> rfl

theorem make_paired_cons {α : Type} (a b : α) (rest : List α) :
    make_paired_cycle_list (a :: b :: rest) = (a, b) :: make_paired_cycle_list rest := by
  simp [make_paired_cycle_list, evens_cons, odds]

theorem total_duration_pairSum : ∀ (l : List Action),
    calculate_total_action_duration (make_paired_cycle_list l) = pairSum (l.map Action.time)
  | [] => by simp [calculate_total_action_duration, make_paired_cycle_list, evens, odds, pairSum]
  | [a] => by simp [calculate_total_action_duration, make_paired_cycle_list, evens, odds, pairSum]
  | a :: b :: rest => by
    have ih := total_duration_pairSum rest
    rw [make_paired_cons]
    simp only [calculate_total_action_duration, List.map_cons, List.sum_cons, pairSum] at ih ⊢
    rw [ih]

theorem windowsLoop_counts (a : Action) (it : Option ℚ) (p : String) : ∀ (ws : List (ℚ × ℚ)),
    windowsLoop a (tpsOf ws) it (some p) =
      Except.ok (List.replicate
        (ws.countP (fun w => decide (w.1 > a.time ∧ a.time > w.2))) ⟨a, p, it⟩)
  | [] => by simp [tpsOf, windowsLoop]
  | w :: rest => by
    have ih := windowsLoop_counts a it p rest
    simp only [tpsOf, List.map_cons] at ih ⊢
    by_cases hw : w.1 > a.time ∧ a.time > w.2
    · simp only [windowsLoop, if_pos hw, ih, ok_bind]
      simp [List.countP_cons, hw, List.replicate_succ]
    · simp only [windowsLoop, if_neg hw, ih]
      simp [List.countP_cons, hw]

theorem countLoop_replicate_drop (t : ℚ) (it : Option ℚ) : ∀ (k : ℕ) (acc : DefCounters),
    countLoop acc (List.replicate k ⟨defendedDropAt t, "cargo", it⟩) =
      Except.ok { acc with
        cargoDrops := acc.cargoDrops + k
        cargoCycles := acc.cargoCycles + k }
  | 0, acc => by simp [countLoop]
  | k + 1, acc => by
    have hstep : addAttributed ⟨defendedDropAt t, "cargo", it⟩ acc =
        Except.ok { acc with
          cargoDrops := acc.cargoDrops + 1
          cargoCycles := acc.cargoCycles + 1 } := by
      simp [addAttributed, defendedDropAt, mkAction]
    have ih := countLoop_replicate_drop t it k
      { acc with cargoDrops := acc.cargoDrops + 1, cargoCycles := acc.cargoCycles + 1 }
    simp only [List.replicate_succ, countLoop, hstep, ok_bind, ih]
    rw [show acc.cargoDrops + 1 + k = acc.cargoDrops + (k + 1) from by omega,
      show acc.cargoCycles + 1 + k = acc.cargoCycles + (k + 1) from by omega]

theorem countersC1 : countDefendedCycles dcC1 = Except.ok ⟨1, 0, 0, 0, 2, 0, [8], []⟩ := by
  simp [countDefendedCycles, countLoop, addAttributed, dcC1, dropActionC1, placeActionC1,
    mkAction, ok_bind]
  norm_num

theorem matchesFilters_type_piece (a : Action) (ty p : String) :
    matchesFilters a [("type", PyVal.str ty), ("piece", PyVal.str p)] =
      Except.ok (a.type == ty && a.piece == some p) := by
  by_cases hty : a.type = ty
  · cases hp : a.piece with
    | none => simp [matchesFilters, Action.get, hty, hp]
    | some q =>
      by_cases hq : q = p
      · simp [matchesFilters, Action.get, hty, hp, hq]
      · simp [matchesFilters, Action.get, hty, hp, hq]
  · simp [matchesFilters, Action.get, hty]

theorem filterActionsList_type_piece (ty p : String) : ∀ l : List Action,
    filterActionsList [("type", PyVal.str ty), ("piece", PyVal.str p)] l =
      Except.ok (l.filter (fun a => a.type == ty && a.piece == some p))
  | [] => rfl
  | a :: rest => by
    have ih := filterActionsList_type_piece ty p rest
    simp [filterActionsList, matchesFilters_type_piece, ih, ok_bind, List.filter_cons]

theorem scan_sole_attributes : ∀ (tl : List Action) (it0 : Option ℚ) (gp0 : Option String),
    (∀ a ∈ tl, a.type = "intake" → a.wasDefended.getD false = false → a.piece.isSome) →
    (∀ l₁ b l₂, tl = l₁ ++ b :: l₂ → defWin b → (∃ i ∈ l₁, undefIntake i) ∨ gp0.isSome) →
    ∃ res, scanActions [(some 135, 0)] tl (it0, gp0) = Except.ok res ∧
      ∀ l₁ a l₂, tl = l₁ ++ a :: l₂ → defWin a → ∃ aa ∈ res.2, aa.action = a
  | [], it0, gp0, _, _ => by
    refine ⟨((it0, gp0), []), rfl, ?_⟩
    intro l₁ a l₂ heq
    exact absurd heq (by simp)
  | h :: t, it0, gp0, H1, H2 => by
    by_cases hdef : h.wasDefended.getD false = false
    · by_cases hint : h.type = "intake"
      · have hp : h.piece.isSome := H1 h (by simp) hint hdef
        obtain ⟨p, hpeq⟩ := Option.isSome_iff_exists.mp hp
        have H1' : ∀ a ∈ t, a.type = "intake" → a.wasDefended.getD false = false →
            a.piece.isSome := fun a ha => H1 a (by simp [ha])
        have H2' : ∀ l₁ b l₂, t = l₁ ++ b :: l₂ → defWin b →
            (∃ i ∈ l₁, undefIntake i) ∨ (some p).isSome := fun l₁ b l₂ _ _ => Or.inr rfl
        obtain ⟨res, hres, hmem⟩ := scan_sole_attributes t (some h.time) (some p) H1' H2'
        refine ⟨res, ?_, ?_⟩
        · simp [scanActions, hdef, hint, hpeq, hres]
        · intro l₁ a l₂ heq hda
          cases l₁ with
          | nil =>
            simp only [List.nil_append, List.cons.injEq] at heq
            rw [← heq.1] at hda
            exact absurd hda.1 (by simp [hdef])
          | cons x l₁' =>
            simp only [List.cons_append, List.cons.injEq] at heq
            exact hmem l₁' a l₂ heq.2 hda
      · have H1' : ∀ a ∈ t, a.type = "intake" → a.wasDefended.getD false = false →
            a.piece.isSome := fun a ha => H1 a (by simp [ha])
        have H2' : ∀ l₁ b l₂, t = l₁ ++ b :: l₂ → defWin b →
            (∃ i ∈ l₁, undefIntake i) ∨ gp0.isSome := by
          intro l₁ b l₂ heq hb
          rcases H2 (h :: l₁) b l₂ (by simp [heq]) hb with hex | hs
          · obtain ⟨i, hi, hui⟩ := hex
            rcases List.mem_cons.mp hi with hih | hil
            · exact absurd (hih ▸ hui).1 hint
            · exact Or.inl ⟨i, hil, hui⟩
          · exact Or.inr hs
        obtain ⟨res, hres, hmem⟩ := scan_sole_attributes t it0 gp0 H1' H2'
        refine ⟨res, ?_, ?_⟩
        · simp [scanActions, hdef, hint, hres]
        · intro l₁ a l₂ heq hda
          cases l₁ with
          | nil =>
            simp only [List.nil_append, List.cons.injEq] at heq
            rw [← heq.1] at hda
            exact absurd hda.1 (by simp [hdef])
          | cons x l₁' =>
            simp only [List.cons_append, List.cons.injEq] at heq
            exact hmem l₁' a l₂ heq.2 hda
    · have hdeft : h.wasDefended.getD false = true := by
        revert hdef; cases h.wasDefended.getD false <;> simp
      have H2' : ∀ l₁ b l₂, t = l₁ ++ b :: l₂ → defWin b →
          (∃ i ∈ l₁, undefIntake i) ∨ gp0.isSome := by
        intro l₁ b l₂ heq hb
        rcases H2 (h :: l₁) b l₂ (by simp [heq]) hb with hex | hs
        · obtain ⟨i, hi, hui⟩ := hex
          rcases List.mem_cons.mp hi with hih | hil
          · exact absurd (hih ▸ hui).2 (by rw [hdeft]; simp)
          · exact Or.inl ⟨i, hil, hui⟩
        · exact Or.inr hs
      have H1' : ∀ a ∈ t, a.type = "intake" → a.wasDefended.getD false = false →
          a.piece.isSome := fun a ha => H1 a (by simp [ha])
      obtain ⟨res, hres, hmem⟩ := scan_sole_attributes t it0 gp0 H1' H2'
      by_cases hin : (135 : ℚ) > h.time ∧ h.time > 0
      · have hgp : gp0.isSome := by
          rcases H2 [] h t (by simp) ⟨hdeft, hin.1, hin.2⟩ with hex | hs
          · obtain ⟨i, hi, _⟩ := hex
            exact absurd hi (by simp)
          · exact hs
        obtain ⟨p, hpeq⟩ := Option.isSome_iff_exists.mp hgp
        subst hpeq
        refine ⟨(res.1, ⟨h, p, it0⟩ :: res.2), ?_, ?_⟩
        · simp [scanActions, hdef, windowsLoop, hin, ok_bind, hres]
        · intro l₁ a l₂ heq hda
          cases l₁ with
          | nil =>
            simp only [List.nil_append, List.cons.injEq] at heq
            exact ⟨⟨h, p, it0⟩, by simp, heq.1⟩
          | cons x l₁' =>
            simp only [List.cons_append, List.cons.injEq] at heq
            obtain ⟨aa, haa, haaeq⟩ := hmem l₁' a l₂ heq.2 hda
            exact ⟨aa, by simp [haa], haaeq⟩
      · refine ⟨res, ?_, ?_⟩
        · simp [scanActions, hdef, windowsLoop, hin, ok_bind, hres]
        · intro l₁ a l₂ heq hda
          cases l₁ with
          | nil =>
            simp only [List.nil_append, List.cons.injEq] at heq
            rw [← heq.1] at hda
            exact absurd ⟨hda.2.1, hda.2.2⟩ hin
          | cons x l₁' =>
            simp only [List.cons_append, List.cons.injEq] at heq
            exact hmem l₁' a l₂ heq.2 hda

/-!  Claim theorems. -/

/-- C1: for a defended opponent with baseline
{avgCargoDrops = 1, avgCargoCycles = 10, cargoCycleAll = 5.0} (any baseline
fail average, any panel baseline) whose defended cycles are 2 cargo cycles
comprising 1 drop and one successful placement of actual cycle time 8.0, the
Defense Attribution Engine computes cargo points prevented
= 3 × ((0.5 − 0.1)·1 + 0 + 0.6) = 3.0 (and failed cycles caused = 0.4); no
panel entry is produced. -/
theorem c1_end_to_end_scenario (af : ℚ) (pb : PieceBaseline) :
    team_points_prevented dcC1 ⟨⟨1, af, 10, some 5⟩, pb⟩ =
      Except.ok (some (3, 2/5), Option.none) := by
  simp [team_points_prevented, countersC1, ok_bind, map_ok, piecePointsPrevented, pyDiv, pySub,
    defended_rate, placeActionC1, mkAction]
  norm_num

/-- C2 (counterexample): the baseline drop/fail rate computation is not
guarded — a defended opponent whose baseline cycle count is zero makes the
engine raise `ZeroDivisionError` (`avg_drops/avg_cycles`,
calculate_defense.py:188) instead of yielding a null value. -/
theorem c2_unguarded_baseline_rate_counterexample :
    team_points_prevented [⟨dropActionC1, "cargo", some 95⟩]
      ⟨⟨1, 0, 0, some 5⟩, ⟨0, 0, 0, Option.none⟩⟩ =
      Except.error "ZeroDivisionError" := by
  have hc : countDefendedCycles [⟨dropActionC1, "cargo", some 95⟩] =
      Except.ok ⟨1, 0, 0, 0, 1, 0, [], []⟩ := by
    simp [countDefendedCycles, countLoop, addAttributed, dropActionC1, mkAction, ok_bind]
  simp [team_points_prevented, hc, ok_bind, error_bind, map_ok, map_error, piecePointsPrevented,
    pyDiv, defended_rate]

/-- C2 (amended): the defended-side quantities are guarded — the defended
drop/fail rate is null exactly on a zero defended-cycle count, the success
percentage and the average cycle time are null on zero qualifying inputs —
but the baseline side of the Defense Attribution Engine is not: a zero
baseline cycle count raises `ZeroDivisionError` and a null baseline cycle
time raises `TypeError` instead of yielding a null value. -/
theorem c2_division_guards :
    (∀ n c : ℕ, defended_rate n c = Option.none ↔ c = 0) ∧
    percent_success [] = Option.none ∧
    calculate_avg_cycle_time [] = Option.none ∧
    (∀ (pv : ℚ) (d f : ℕ) (ct : List ℚ) (ddr dfr : Option ℚ) (ad af : ℚ) (act : Option ℚ),
      piecePointsPrevented pv d f ct ddr dfr ad af 0 act = Except.error "ZeroDivisionError") ∧
    (∀ (pv : ℚ) (d f : ℕ) (ct : List ℚ) (ddr dfr : Option ℚ) (ad af ac : ℚ), ac ≠ 0 →
      piecePointsPrevented pv d f ct ddr dfr ad af ac Option.none =
        Except.error "TypeError") := by
  refine ⟨?_, ?_, ?_, ?_, ?_⟩
  · intro n c
    constructor
    · intro h
      by_contra hc
      simp [defended_rate, hc] at h
    · intro h
      simp [defended_rate, h]
  · rfl
  · rfl
  · intro pv d f ct ddr dfr ad af act
    simp [piecePointsPrevented, pyDiv, error_bind]
  · intro pv d f ct ddr dfr ad af ac hac
    cases hct : ct.isEmpty <;> cases ddr <;> cases dfr <;>
      simp [piecePointsPrevented, pyDiv, pySub, hac, hct, ok_bind, error_bind]

/-- C2 amended witness: concrete instances of the guards and of the two
unguarded baseline failures. -/
theorem c2_division_guards_witness :
    defended_rate 1 0 = Option.none ∧
    piecePointsPrevented 3 1 0 [] Option.none Option.none 1 1 0 (some 5) =
      Except.error "ZeroDivisionError" ∧
    piecePointsPrevented 3 1 0 [] (some 1) (some 0) 1 1 5 Option.none =
      Except.error "TypeError" :=
  ⟨(c2_division_guards.1 1 0).mpr rfl,
   c2_division_guards.2.2.2.1 3 1 0 [] Option.none Option.none 1 1 (some 5),
   c2_division_guards.2.2.2.2 3 1 0 [] (some 1) (some 0) 1 1 5 (by norm_num)⟩

/-- C3: a TIMD whose team number is on neither alliance roster is reported
(`Error: TIMD is not in match schedule.`) but is *not* skipped — the stale
loop variable files it under the previously assigned alliance (here red),
so it is merged into that alliance's record set. -/
theorem c3_roster_mismatch_merged :
    assign_alliances ["1"] ["2"] [("1Q1", t1C3), ("9Q1", t1C3)] =
      Except.ok ⟨[("1Q1", t1C3), ("9Q1", t1C3)], [], [], [],
        ["Error: TIMD is not in match schedule."]⟩ := by
  simp [assign_alliances, assignLoop, teamOf, t1C3]

/-- C4: when the defender is the only TIMD of its alliance that played any
defense (in particular when exactly one robot across the whole match did),
its windows are overridden to the single full-match span (135.0, 0.0)
whatever its own recorded window timestamps, and under those windows every
opposing event marked wasDefended whose time lies strictly inside
(0, 135) — each one carrying a preceding acquisition context, and intakes
carrying their piece — is attributed to that sole defender. -/
theorem c4_sole_defender_override (n : String) (tl : List Action) (opp : List Action)
    (H1 : ∀ a ∈ opp, a.type = "intake" → a.wasDefended.getD false = false → a.piece.isSome)
    (H2 : ∀ l₁ b l₂, opp = l₁ ++ b :: l₂ → defWin b → ∃ i ∈ l₁, undefIntake i) :
    defender_time_pairs [(n, tl)] tl = [(some 135, 0)] ∧
    ∃ res, scanActions (defender_time_pairs [(n, tl)] tl) opp (Option.none, Option.none) =
        Except.ok res ∧
      ∀ l₁ a l₂, opp = l₁ ++ a :: l₂ → defWin a → ∃ aa ∈ res.2, aa.action = a := by
  have hover : defender_time_pairs [(n, tl)] tl = [(some 135, 0)] := by
    simp [defender_time_pairs]
  refine ⟨hover, ?_⟩
  rw [hover]
  exact scan_sole_attributes opp Option.none Option.none H1
    (fun l₁ b l₂ heq hd => Or.inl (H2 l₁ b l₂ heq hd))

/-- C4 witness: a concrete sole defender whose own recorded windows
(50 → 40) do not contain the opposing defended event at time 90; the
windows are overridden to (135, 0) and the event is attributed anyway. -/
theorem c4_sole_defender_override_witness :
    defender_time_pairs [("5", tlW4)] tlW4 = [(some 135, 0)] ∧
    ∃ res, scanActions (defender_time_pairs [("5", tlW4)] tlW4) oppW4
        (Option.none, Option.none) = Except.ok res ∧
      ∀ l₁ a l₂, oppW4 = l₁ ++ a :: l₂ → defWin a → ∃ aa ∈ res.2, aa.action = a :=
  c4_sole_defender_override "5" tlW4 oppW4 (by decide)
    (by
      intro l₁ b l₂ heq hdefb
      match l₁, heq with
      | [], heq =>
        rw [show b = intakeOf 100 "cargo" from by
          have := congrArg (fun l => l.headD (mkAction "x" 0)) heq
          simpa [oppW4] using this.symm] at hdefb
        exact absurd hdefb.1 (by decide)
      | [x], heq =>
        simp only [oppW4, List.cons_append, List.nil_append, List.cons.injEq] at heq
        exact ⟨intakeOf 100 "cargo", by rw [heq.1]; simp, by decide⟩
      | x :: y :: l, heq =>
        simp only [oppW4, List.cons_append, List.cons.injEq] at heq
        exact absurd heq.2.2 (by simp))

/-- C5 (amended): a defended event inside a window does not require a
preceding acquisition in its own timeline — when no intake has been seen
at all (`game_piece` never assigned), attributing it raises `NameError`
rather than the event being skipped. -/
theorem c5_no_intake_context_error (a : Action) (rest : List Action) (s e : ℚ)
    (it0 : Option ℚ) (hdef : a.wasDefended.getD false = true)
    (hs : s > a.time) (he : a.time > e) :
    scanActions [(some s, e)] (a :: rest) (it0, Option.none) = Except.error "NameError" := by
  have hcond : ¬(a.wasDefended.getD false = false) := by simp [hdef]
  simp [scanActions, hcond, windowsLoop, hs, he, error_bind]

/-- C5 amended witness: the defended placement at time 80 inside the window
(135, 0) with no intake ever seen raises `NameError`. -/
theorem c5_no_intake_context_error_witness :
    scanActions [(some (135 : ℚ), (0 : ℚ))] [defPlaceC5] (Option.none, Option.none) =
      Except.error "NameError" :=
  c5_no_intake_context_error defPlaceC5 [] 135 0 Option.none (by decide)
    (by norm_num [defPlaceC5, mkAction]) (by norm_num [defPlaceC5, mkAction])

/-- C5 (counterexample): a defended event with no preceding acquisition in
its own timeline *is* attributed as a defended cycle: team 8's timeline
holds no intake at all, yet its defended placement is attributed, carrying
the game piece of team 7's timeline and a null intake time. -/
theorem c5_attribution_without_intake_counterexample :
    scanOpponents [(some 135, 0)]
      [("7Q1", ⟨some [intakeC5], ⟨Option.none⟩⟩),
       ("8Q1", ⟨some [foulC5, defPlaceC5], ⟨Option.none⟩⟩)] Option.none =
      Except.ok ([("8", [⟨defPlaceC5, "cargo", Option.none⟩])], some "cargo") := by
  have hwin : ((135 : ℚ) > 80 ∧ (80 : ℚ) > 0) := by norm_num
  simp [scanOpponents, scanActions, windowsLoop, intakeC5, foulC5, defPlaceC5, mkAction,
    ok_bind, teamOf, hwin]

/-- C6 (counterexample): on the timeline
`[startDefense@100, startDefense@80, endDefense@60]` the Metrics Extractor's
`timeDefending` is 20.0 (positional pairing, no deduplication), while the
claimed dedup-then-pair construction yields 40.0 — the claimed equality
fails. -/
theorem c6_timeDefending_counterexample :
    timeDefending exTimdC6 = 20 ∧ claimed_defense_duration exTimdC6 = 40 ∧
      timeDefending exTimdC6 ≠ claimed_defense_duration exTimdC6 := by
  refine ⟨?_, ?_, ?_⟩
  · simp [timeDefending, defense_items, exTimdC6, mkAction, calculate_total_action_duration,
      make_paired_cycle_list, evens, odds]
    norm_num
  · simp [claimed_defense_duration, claimedWindows, defense_items, exTimdC6, mkAction]
    norm_num
  · have h1 : timeDefending exTimdC6 = 20 := by
      simp [timeDefending, defense_items, exTimdC6, mkAction, calculate_total_action_duration,
        make_paired_cycle_list, evens, odds]
      norm_num
    have h2 : claimed_defense_duration exTimdC6 = 40 := by
      simp [claimed_defense_duration, claimedWindows, defense_items, exTimdC6, mkAction]
      norm_num
    rw [h1, h2]
    norm_num

/-- C7: the timeline `[intake(p), placement(p)]` yields exactly the one
paired cycle `(intake, placement)` whose per-piece average cycle time is
`intake.time − placement.time`; the timeline
`[placement(p), intake(p), placement(p)]` yields exactly that same single
cycle, the leading placement being dropped as a preload and hence absent
from the cycle-time statistics. -/
theorem c7_cycle_pairing (tI tP tPre : ℚ) (p : String) :
    paired_cycle_list ⟨some [intakeOf tI p, placementOf tP p], ⟨Option.none⟩⟩ =
      some [(intakeOf tI p, placementOf tP p)] ∧
    pieceCycleAll ⟨some [intakeOf tI p, placementOf tP p], ⟨Option.none⟩⟩ p =
      some (some (tI - tP)) ∧
    paired_cycle_list ⟨some [placementOf tPre p, intakeOf tI p, placementOf tP p],
        ⟨Option.none⟩⟩ = some [(intakeOf tI p, placementOf tP p)] ∧
    pieceCycleAll ⟨some [placementOf tPre p, intakeOf tI p, placementOf tP p],
        ⟨Option.none⟩⟩ p = some (some (tI - tP)) := by
  refine ⟨?_, ?_, ?_, ?_⟩ <;>
    simp [paired_cycle_list, cycle_list, intakeOf, placementOf, mkAction,
      make_paired_cycle_list, evens, odds, pieceCycleAll, filter_cycles, cycleMatches,
      Action.get, calculate_avg_cycle_time, utilsAvg, PyVal.str.injEq]

/-- C6 (amended): `timeDefending` equals the alternating pairwise sum
`(t₁ − t₂) + (t₃ − t₄) + ⋯` of the defense events' times in timeline order
— positional pairing with no deduplication, a trailing unpaired event
contributing nothing — and is 0.0 when no defense events occurred. -/
theorem c6_timeDefending_pairwise (timd : Timd) :
    timeDefending timd = pairSum ((defense_items timd).map Action.time) := by
  cases hd : defense_items timd with
  | nil => simp [timeDefending, hd, pairSum]
  | cons a rest =>
    have h2 := total_duration_pairSum (a :: rest)
    simp only [timeDefending, hd]
    simpa using h2

/-- C9: for each piece kind p, the cycles-started count equals the number of
intake events of piece p, minus one exactly when the last cycle action of
the timeline is an intake of piece p (the robot ended the match holding a
piece), and is not reduced otherwise — provided a trailing intake carries
one of the two counted piece kinds. -/
theorem c9_cycles_started (timd : Timd)
    (H : ∀ a ∈ ((cycle_actions timd).getLast?).toList, a.type = "intake" →
      a.piece = some "cargo" ∨ a.piece = some "panel") :
    piece_cycles timd = Except.ok
      (intakeEventCount timd "cargo" -
        (if trailingIntakePiece timd = some "cargo" then 1 else 0),
       intakeEventCount timd "panel" -
        (if trailingIntakePiece timd = some "panel" then 1 else 0)) := by
  have hcargo := filterActionsList_type_piece "intake" "cargo" (timd.timeline.getD [])
  have hpanel := filterActionsList_type_piece "intake" "panel" (timd.timeline.getD [])
  have hcnt : ∀ p : String, intakeEventCount timd p =
      (((timd.timeline.getD []).filter
        (fun a => a.type == "intake" && a.piece == some p)).length : ℤ) := by
    intro p
    rw [intakeEventCount, List.countP_eq_length_filter]
  simp only [piece_cycles, filter_timeline_actions, hcargo, hpanel, map_ok, ok_bind]
  cases hlast : (cycle_actions timd).getLast? with
  | none =>
    have ht : trailingIntakePiece timd = Option.none := by
      simp [trailingIntakePiece, hlast]
    simp [ht, hcnt]
  | some last =>
    by_cases hint : last.type = "intake"
    · rcases H last (by simp [hlast]) hint with hpc | hpp
      · have ht : trailingIntakePiece timd = some "cargo" := by
          simp [trailingIntakePiece, hlast, hint, hpc]
        simp [hint, hpc, ht, hcnt]
      · have ht : trailingIntakePiece timd = some "panel" := by
          simp [trailingIntakePiece, hlast, hint, hpp]
        simp [hint, hpp, ht, hcnt]
    · have ht : trailingIntakePiece timd = Option.none := by
        simp [trailingIntakePiece, hlast, hint]
      simp [hint, ht, hcnt]

/-- C9 witness: two cargo intakes with a trailing placement — no trailing
intake, so two cargo cycles and zero panel cycles. -/
theorem c9_cycles_started_witness : piece_cycles exW9 = Except.ok (2, 0) := by
  have h := c9_cycles_started exW9 (by decide)
  rw [h]
  decide

/-- C10: an opposing defended event whose time lies strictly inside k of the
defender's windows (k = the count of windows containing it) is appended to
the defended-cycles list k times, and its cycle and drop contributions are
then counted once per containing window: k cycles and k drops from the one
event. -/
theorem c10_overlap_multi_attribution (ws : List (ℚ × ℚ)) (t t0 : ℚ) :
    scanActions (tpsOf ws) [intakeOf t0 "cargo", defendedDropAt t]
        (Option.none, Option.none) =
      Except.ok ((some t0, some "cargo"),
        List.replicate (ws.countP (fun w => decide (w.1 > t ∧ t > w.2)))
          ⟨defendedDropAt t, "cargo", some t0⟩) ∧
    countDefendedCycles
        (List.replicate (ws.countP (fun w => decide (w.1 > t ∧ t > w.2)))
          ⟨defendedDropAt t, "cargo", some t0⟩) =
      Except.ok ⟨ws.countP (fun w => decide (w.1 > t ∧ t > w.2)), 0, 0, 0,
        ws.countP (fun w => decide (w.1 > t ∧ t > w.2)), 0, [], []⟩ := by
  constructor
  · have hwl := windowsLoop_counts (defendedDropAt t) (some t0) "cargo" ws
    simp only [defendedDropAt, mkAction] at hwl
    simp [scanActions, intakeOf, defendedDropAt, mkAction, hwl, ok_bind]
  · have hcl := countLoop_replicate_drop t (some t0)
      (ws.countP (fun w => decide (w.1 > t ∧ t > w.2))) ⟨0, 0, 0, 0, 0, 0, [], []⟩
    simpa [countDefendedCycles] using hcl

/-- C8 (amended): an event missing the field of a generic equality predicate
is treated as not matching; the level-1 predicate also matches events with
no level field; and a filter call whose predicates match no event returns
the empty list rather than an error.  (The zone = 'loadingStation'
predicate, by contrast, raises on a missing zone — see the
counterexample.) -/
theorem c8_filter_missing_fields :
    (∀ (a : Action) (f : String) (v : PyVal), f ≠ "level" → f ≠ "zone" → f ≠ "time" →
      a.get f = PyVal.none → v ≠ PyVal.none → matchesFilters a [(f, v)] = Except.ok false) ∧
    (∀ a : Action, a.level = Option.none →
      matchesFilters a [("level", PyVal.int 1)] = Except.ok true) ∧
    (∀ (timd : Timd) (filters : List (String × PyVal)),
      (∀ a ∈ timd.timeline.getD [], matchesFilters a filters = Except.ok false) →
      filter_timeline_actions timd filters = Except.ok []) := by
  refine ⟨?_, ?_, ?_⟩
  · intro a f v hf1 hf2 hf3 hget hv
    have h1 : ¬(f = "level" ∧ v = PyVal.int 1) := fun h => hf1 h.1
    have h2 : ¬(f = "zone" ∧ v = PyVal.str "loadingStation") := fun h => hf2 h.1
    simp only [matchesFilters, if_neg h1, if_neg h2, if_neg hf3]
    rw [if_pos]
    rw [hget]
    exact fun h => hv h.symm
  · intro a hlev
    simp [matchesFilters, hlev]
  · intro timd filters hall
    rw [filter_timeline_actions]
    revert hall
    generalize timd.timeline.getD [] = l
    induction l with
    | nil => intro _; rfl
    | cons a rest ih =>
      intro hall
      have ha := hall a (by simp)
      have hr := ih (fun b hb => hall b (by simp [hb]))
      simp [filterActionsList, ha, hr, ok_bind]

/-- C8 amended witness: a `piece` predicate on an event with no piece field
does not match; an absent level matches level 1; and a no-match filter call
on the single-intake timeline returns the empty list. -/
theorem c8_filter_missing_fields_witness :
    matchesFilters (mkAction "intake" 100) [("piece", PyVal.str "cargo")] = Except.ok false ∧
    matchesFilters (mkAction "placement" 50) [("level", PyVal.int 1)] = Except.ok true ∧
    filter_timeline_actions exTimdC8 [("type", PyVal.str "drop")] = Except.ok [] := by
  refine ⟨?_, ?_, ?_⟩
  · exact c8_filter_missing_fields.1 (mkAction "intake" 100) "piece" (PyVal.str "cargo")
      (by decide) (by decide) (by decide) rfl (by decide)
  · exact c8_filter_missing_fields.2.1 (mkAction "placement" 50) rfl
  · exact c8_filter_missing_fields.2.2 exTimdC8 [("type", PyVal.str "drop")] (by decide)


/-- C8 (counterexample): the `zone = 'loadingStation'` predicate indexes the
field directly, so an event lacking `zone` raises `KeyError` instead of
being treated as not matching. -/
theorem c8_zone_keyerror_counterexample :
    filter_timeline_actions exTimdC8 [("zone", PyVal.str "loadingStation")] =
      Except.error "KeyError" := by
  simp [filter_timeline_actions, filterActionsList, matchesFilters, exTimdC8, mkAction,
    error_bind]

end Scouting
